import Mathlib

/-!
# Verification of `donkeycar/parts/smart_leds_status.py`

Shallow embedding of the LittleWire `device` transport wrapper and the
`SMART_LEDS` controller from `src/donkeycar/parts/smart_leds_status.py`.

Timestamps are modelled as rationals (Python `time.time()` yields real
seconds); the channel arithmetic of `set_rgb` is modelled exactly over ℚ
(`int(x * 255.0/100.0)` truncates toward zero).  USB control transfers are
recorded as values of `CtrlTransfer`; a possible `usb.core.USBError` during a
cycle is modelled by an optional index `failAt` of the first transfer that
raises.
-/

namespace SmartLeds

/-- `USB_TIMEOUT = 1` from the module constants. -/
def USB_TIMEOUT : Nat := 1

/-- `MIN_UPDATE_INTERVAL = 0.001` from the module constants (seconds). -/
def MIN_UPDATE_INTERVAL : ℚ := 1 / 1000

/-- One USB control transfer as issued by `lw.ctrl_transfer(...)`:
request type, request code, wValue, wIndex, data length, timeout. -/
structure CtrlTransfer where
  bmRequestType : Nat
  bRequest : Nat
  wValue : Nat
  wIndex : Nat
  wLength : Nat
  timeout : Nat
deriving DecidableEq, Repr

/-- `device.ws2812_write(pin, r, g, b)`:
`ctrl_transfer(0xC0, 54, (g<<8) | pin | 0x30, (b<<8) | r, 8, USB_TIMEOUT)`. -/
def ws2812_write (pin r g b : Nat) : CtrlTransfer :=
  ⟨0xC0, 54, (g <<< 8) ||| pin ||| 0x30, (b <<< 8) ||| r, 8, USB_TIMEOUT⟩

/-- `device.ws2812_flush(pin)`:
`ctrl_transfer(0xC0, 54, pin | 0x10, 0, 8, USB_TIMEOUT)`. -/
def ws2812_flush (pin : Nat) : CtrlTransfer :=
  ⟨0xC0, 54, pin ||| 0x10, 0, 8, USB_TIMEOUT⟩

/-- `device.ws2812_preload(r, g, b)`:
`ctrl_transfer(0xC0, 54, (g<<8) | 0x20, (b<<8) | r, 8, USB_TIMEOUT)`. -/
def ws2812_preload (r g b : Nat) : CtrlTransfer :=
  ⟨0xC0, 54, (g <<< 8) ||| 0x20, (b <<< 8) ||| r, 8, USB_TIMEOUT⟩

/-- An RGB triple as stored in `self.ledstatus`.  After construction and after
every `set_rgb` the stored channels are clamped into `[0,255]`, so natural
numbers model the Python ints losslessly. -/
abbrev Pixel := Nat × Nat × Nat

/-- The mutable state of a `SMART_LEDS` instance (the fields assigned in
`__init__` and mutated by the methods). -/
structure LedState where
  last_execution : ℚ
  blink_changed : ℚ
  isOn : Bool
  running : Bool
  force_off : Bool
  pin : Nat
  stringlen : Nat
  ledstatus : List Pixel
deriving DecidableEq, Repr

/-- `toggle(condition)`: `self.force_off = not condition`. -/
def toggle (s : LedState) (condition : Bool) : LedState :=
  { s with force_off := !condition }

/-- `blink(rate)`: when `time.time() - self.blink_changed > rate`, call
`self.toggle(not self.on)` and set `self.blink_changed = time.time()`. -/
def blink (s : LedState) (now rate : ℚ) : LedState :=
  if now - s.blink_changed > rate then
    { toggle s (!s.isOn) with blink_changed := now }
  else s

/-- `run_threaded(blink_rate)`: `0 → toggle(False)`, positive → `blink`,
negative → `toggle(True)`. -/
def run_threaded (s : LedState) (now blink_rate : ℚ) : LedState :=
  if blink_rate = 0 then toggle s false
  else if blink_rate > 0 then blink s now blink_rate
  else toggle s true

/-- `shutdown()`: `self.toggle(False)` then `self.running = False`. -/
def shutdown (s : LedState) : LedState :=
  { toggle s false with running := false }

/-- Truncation toward zero of a rational: Python `int(...)` applied to a
float/number. -/
def ratTrunc (q : ℚ) : ℤ :=
  if 0 ≤ q then ⌊q⌋ else -⌊-q⌋

/-- One channel of `set_rgb`:
`max(min(int(x * 255.0/100.0), 255), 0)`.  The result of the clamp is
non-negative, so the value is returned as a natural number. -/
def scaleChannel (x : ℚ) : Nat :=
  (max (min (ratTrunc (x * 255 / 100)) 255) 0).toNat

/-- The loop `for i in range(self.stringlen): self.ledstatus[i] = color`:
overwrite positions `0 .. n-1` of the list with `c`. -/
def setAllLoop (l : List Pixel) (n : Nat) (c : Pixel) : List Pixel :=
  (List.range n).foldl (fun acc i => acc.set i c) l

/-- `set_rgb(r, g, b)`: clamp the scaled channels, then store the same triple
at every position `0 .. stringlen-1`. -/
def set_rgb (s : LedState) (r g b : ℚ) : LedState :=
  let color : Pixel := (scaleChannel r, scaleChannel g, scaleChannel b)
  { s with ledstatus := setAllLoop s.ledstatus s.stringlen color }

/-- The time the loop sleeps at the top of `update_leds`:
`remaining = MIN_UPDATE_INTERVAL - (time.time() - self.last_execution)`,
slept only when positive. -/
def sleepRemaining (now last : ℚ) : ℚ :=
  let remaining := MIN_UPDATE_INTERVAL - (now - last)
  if remaining > 0 then remaining else 0

/-- The time at which the first control transfer of a cycle starting at `now`
is issued: after the sleep, if any. -/
def cyclePushTime (now last : ℚ) : ℚ :=
  now + sleepRemaining now last

/-- The full transfer sequence of one successful cycle: one preload per
buffer position (all-zero when `zero` is set), then one flush. -/
def cycleTransfers (zero : Bool) (leds : List Pixel) (pin : Nat) :
    List CtrlTransfer :=
  (leds.map fun c =>
    if zero then ws2812_preload 0 0 0 else ws2812_preload c.1 c.2.1 c.2.2)
    ++ [ws2812_flush pin]

/-- Error value of a `usb.core.USBError` raised mid-cycle, carrying the state
as mutated so far and the transfers already issued (Python assignments made
before the raise persist). -/
structure USBErr where
  partState : LedState
  issued : List CtrlTransfer
deriving Repr

/-- The `try` body of `update_leds(zero)`: set `self.on` per iteration and
issue one preload per buffer position, then the flush.  `failAt = some k`
models the `k`-th control transfer raising `usb.core.USBError`; the `on`
assignment of an iteration precedes its preload, so it survives a failure at
that very transfer. -/
def update_leds_body (s : LedState) (zero : Bool) (failAt : Option Nat) :
    Except USBErr (LedState × List CtrlTransfer) :=
  let s' := if s.ledstatus.isEmpty then s else { s with isOn := !zero }
  let ts := cycleTransfers zero s.ledstatus s.pin
  match failAt with
  | none => .ok (s', ts)
  | some k =>
      if k < ts.length then .error ⟨s', ts.take k⟩ else .ok (s', ts)

/-- `update_leds(zero)`: sleep off the remainder of `MIN_UPDATE_INTERVAL`,
run the body with `usb.core.USBError` caught and discarded, then set
`self.last_execution = time.time()` unconditionally.  `now` is the cycle
start time and `dur ≥ 0` the time the transfers themselves take, so the
final timestamp is `cyclePushTime now s.last_execution + dur`. -/
def update_leds (s : LedState) (zero : Bool) (now dur : ℚ)
    (failAt : Option Nat) : LedState × List CtrlTransfer :=
  let endTime := cyclePushTime now s.last_execution + dur
  match update_leds_body s zero failAt with
  | .ok (s', ts) => ({ s' with last_execution := endTime }, ts)
  | .error e => ({ e.partState with last_execution := endTime }, e.issued)

/-- The controller state built by `__init__(stringlen, pin)` just before the
initial `self.update_leds()` call: timestamps, flags and a buffer of
`stringlen` copies of the neutral gray `(128,128,128)`. -/
def initState (stringlen pin : Nat) (t0 : ℚ) : LedState :=
  { last_execution := t0
    blink_changed := 0
    isOn := false
    running := true
    force_off := false
    pin := pin
    stringlen := stringlen
    ledstatus := List.replicate stringlen (128, 128, 128) }

/-- `__init__` after a successful firmware-version read: build `initState`
and perform the one synchronous `update_leds()` push (default `zero=False`). -/
def mkController (stringlen pin : Nat) (t0 now dur : ℚ)
    (failAt : Option Nat) : LedState × List CtrlTransfer :=
  update_leds (initState stringlen pin t0) false now dur failAt

/-- `SMART_LEDS.__init__(stringlen, pin)` with the transport already open:
`print('lw detected, fw:', self.lw.readFirmwareVersion())` is not guarded by
any `try`, so a failing firmware-version read propagates out of `__init__`
before the buffer is built; otherwise construction completes with the
initial push. -/
def smartLedsInit (stringlen pin : Nat) (t0 now dur : ℚ)
    (fwRead : Except Unit Nat) (failAt : Option Nat) :
    Except Unit (LedState × List CtrlTransfer) :=
  match fwRead with
  | .error e => .error e
  | .ok _ => .ok (mkController stringlen pin t0 now dur failAt)

/-- One iteration decision of `update()`: `while self.running:` runs
`self.update_leds(self.force_off)` then sleeps; once `running` is observed
false the loop exits at once, with no further cycle.  The schedule `times`
supplies each potential cycle's `(now, dur)` and bounds the run length. -/
def updateLoop (s : LedState) (times : List (ℚ × ℚ))
    (failAt : Option Nat) : LedState × List CtrlTransfer :=
  match times with
  | [] => (s, [])
  | (now, dur) :: rest =>
      if s.running then
        let (s', ts) := update_leds s s.force_off now dur failAt
        let (s'', ts') := updateLoop s' rest failAt
        (s'', ts ++ ts')
      else (s, [])

/-- The channel value the specification states for `set_color`:
`clamp(round(x*255/100), 0, 255)` with mathematical rounding.  Kept separate
from `scaleChannel` (the code's truncating version) so the two can be
compared. -/
def claimRoundChannel (x : ℚ) : ℤ :=
  max (min (round (x * 255 / 100)) 255) 0

/-- The truncating variant of the clamp, `clamp(trunc(x*255/100), 0, 255)`,
matching Python `int()`. -/
def claimTruncChannel (x : ℚ) : ℤ :=
  max (min (ratTrunc (x * 255 / 100)) 255) 0

/-- A caller-side method call on the controller, for reachability
statements. -/
inductive Op where
  | opSetRgb (r g b : ℚ)
  | opToggle (c : Bool)
  | opBlink (now rate : ℚ)
  | opRunThreaded (now rate : ℚ)
  | opShutdown
deriving Repr

/-- Apply one method call to the controller state. -/
def applyOp (s : LedState) : Op → LedState
  | .opSetRgb r g b => set_rgb s r g b
  | .opToggle c => toggle s c
  | .opBlink now rate => blink s now rate
  | .opRunThreaded now rate => run_threaded s now rate
  | .opShutdown => shutdown s

/-- Apply a sequence of method calls. -/
def runOps (s : LedState) (ops : List Op) : LedState :=
  ops.foldl applyOp s

/-! ## Supporting lemmas -/

/-- Bitwise-or of a left-shifted value with a small constant is addition. -/
lemma shiftLeft_lor_eq_add (n a c : Nat) (h : c < 2 ^ n) :
    (a <<< n) ||| c = a * 2 ^ n + c := by
  apply Nat.eq_of_testBit_eq
  intro i
  rw [Nat.mul_comm a (2 ^ n), Nat.testBit_mul_pow_two_add a h i]
  rcases lt_or_ge i n with hi | hi
  · have h1 : ¬ n ≤ i := Nat.not_le.mpr hi
    simp [Nat.testBit_shiftLeft, Nat.testBit_or, hi, h1]
  · have hc : c < 2 ^ i := lt_of_lt_of_le h (Nat.pow_le_pow_right (by norm_num) hi)
    simp [Nat.testBit_shiftLeft, Nat.testBit_or, Nat.not_lt.mpr hi, hi,
      Nat.testBit_lt_two_pow hc]

/-- Unfolding one iteration of the `set_rgb` write loop. -/
lemma setAllLoop_succ (l : List Pixel) (n : Nat) (c : Pixel) :
    setAllLoop l (n + 1) c = (setAllLoop l n c).set n c := by
  unfold setAllLoop
  rw [List.range_succ, List.foldl_append]
  rfl

/-- The `set_rgb` write loop never changes the buffer length. -/
lemma setAllLoop_length (l : List Pixel) (n : Nat) (c : Pixel) :
    (setAllLoop l n c).length = l.length := by
  induction n with
  | zero => rfl
  | succ n ih => rw [setAllLoop_succ, List.length_set, ih]

/-- Elementwise description of the `set_rgb` write loop. -/
lemma setAllLoop_getElem? (l : List Pixel) (n : Nat) (c : Pixel) (i : Nat) :
    (setAllLoop l n c)[i]? = if i < n ∧ i < l.length then some c else l[i]? := by
  induction n with
  | zero => simp [setAllLoop]
  | succ n ih =>
      rw [setAllLoop_succ, List.getElem?_set, setAllLoop_length, ih]
      rcases Nat.lt_trichotomy i n with hi | hi | hi
      · simp only [Nat.ne_of_gt hi, if_false]
        by_cases hl : i < l.length
        · simp [hi, Nat.lt_succ_of_lt hi, hl]
        · simp [hl]
      · subst hi
        by_cases hl : i < l.length
        · simp [hl, Nat.lt_succ_self]
        · simp [hl, List.getElem?_eq_none (Nat.le_of_not_lt hl)]
      · have h1 : ¬ i < n := Nat.lt_asymm hi
        have h2 : ¬ i < n + 1 := Nat.not_lt.mpr hi
        simp [Nat.ne_of_lt hi, h1, h2, Ne.symm (Nat.ne_of_lt hi)]

/-- Running the write loop over the whole buffer replaces it wholesale. -/
lemma setAllLoop_full (l : List Pixel) (c : Pixel) :
    setAllLoop l l.length c = List.replicate l.length c := by
  apply List.ext_getElem?
  intro i
  rw [setAllLoop_getElem?, List.getElem?_replicate]
  by_cases hi : i < l.length
  · simp [hi]
  · simp [hi, List.getElem?_eq_none (Nat.le_of_not_lt hi)]

/-- When the buffer length agrees with `stringlen` (true in every reachable
state), the `set_rgb` write loop replaces the whole buffer. -/
lemma set_rgb_ledstatus (s : LedState) (r g b : ℚ)
    (hlen : s.ledstatus.length = s.stringlen) :
    (set_rgb s r g b).ledstatus
      = List.replicate s.stringlen
          (scaleChannel r, scaleChannel g, scaleChannel b) := by
  show setAllLoop s.ledstatus s.stringlen _ = _
  rw [← hlen, setAllLoop_full]

/-- Full description of the post-state of `update_leds`: `isOn` is set to
`!zero` whenever the buffer is nonempty (the assignment happens inside the
pixel loop), and `last_execution` is stamped unconditionally. -/
lemma update_leds_fst (s : LedState) (zero : Bool) (now dur : ℚ)
    (failAt : Option Nat) :
    (update_leds s zero now dur failAt).1
      = { (if s.ledstatus.isEmpty then s else { s with isOn := !zero }) with
          last_execution := cyclePushTime now s.last_execution + dur } := by
  unfold update_leds update_leds_body
  cases failAt with
  | none => rfl
  | some k =>
      by_cases hk : k < (cycleTransfers zero s.ledstatus s.pin).length
      · dsimp only
        rw [if_pos hk]
      · dsimp only
        rw [if_neg hk]

/-- `update_leds` leaves every field other than `isOn` and `last_execution`
unchanged. -/
lemma update_leds_preserves (s : LedState) (zero : Bool) (now dur : ℚ)
    (failAt : Option Nat) :
    ((update_leds s zero now dur failAt).1).ledstatus = s.ledstatus
    ∧ ((update_leds s zero now dur failAt).1).force_off = s.force_off
    ∧ ((update_leds s zero now dur failAt).1).pin = s.pin
    ∧ ((update_leds s zero now dur failAt).1).stringlen = s.stringlen
    ∧ ((update_leds s zero now dur failAt).1).running = s.running
    ∧ ((update_leds s zero now dur failAt).1).blink_changed
        = s.blink_changed := by
  rw [update_leds_fst]
  by_cases h : s.ledstatus.isEmpty <;> simp [h]

/-- On a nonempty buffer a cycle records `isOn = !zero`, whether or not a
transfer fails. -/
lemma update_leds_isOn (s : LedState) (zero : Bool) (now dur : ℚ)
    (failAt : Option Nat) (h : s.ledstatus ≠ []) :
    ((update_leds s zero now dur failAt).1).isOn = !zero := by
  rw [update_leds_fst]
  have : s.ledstatus.isEmpty = false := by
    cases hls : s.ledstatus with
    | nil => exact absurd hls h
    | cons a l => rfl
  simp [this]

/-- A failure-free cycle issues exactly the buffer's transfer sequence. -/
lemma update_leds_snd_none (s : LedState) (zero : Bool) (now dur : ℚ) :
    (update_leds s zero now dur none).2
      = cycleTransfers zero s.ledstatus s.pin := rfl

/-- A forced-off cycle preloads `(0,0,0)` once per position, then flushes. -/
lemma cycleTransfers_zero (leds : List Pixel) (pin : Nat) :
    cycleTransfers true leds pin
      = List.replicate leds.length (ws2812_preload 0 0 0)
          ++ [ws2812_flush pin] := by
  simp [cycleTransfers, List.map_const']

/-- `blink` never touches the buffer or its declared length. -/
lemma blink_preserves (s : LedState) (now rate : ℚ) :
    (blink s now rate).ledstatus = s.ledstatus
    ∧ (blink s now rate).stringlen = s.stringlen := by
  unfold blink
  by_cases hb : now - s.blink_changed > rate
  · rw [if_pos hb]
    exact ⟨rfl, rfl⟩
  · rw [if_neg hb]
    exact ⟨rfl, rfl⟩

/-- `run_threaded` never touches the buffer or its declared length. -/
lemma run_threaded_preserves (s : LedState) (now rate : ℚ) :
    (run_threaded s now rate).ledstatus = s.ledstatus
    ∧ (run_threaded s now rate).stringlen = s.stringlen := by
  unfold run_threaded
  by_cases h0 : rate = 0
  · rw [if_pos h0]
    exact ⟨rfl, rfl⟩
  · rw [if_neg h0]
    by_cases hp : rate > 0
    · rw [if_pos hp]
      exact blink_preserves s now rate
    · rw [if_neg hp]
      exact ⟨rfl, rfl⟩

/-- Every caller-side method call keeps the buffer uniform: one color
replicated `stringlen` times. -/
lemma applyOp_uniform (s : LedState) (o : Op)
    (h : ∃ c, s.ledstatus = List.replicate s.stringlen c) :
    ∃ c, (applyOp s o).ledstatus
      = List.replicate ((applyOp s o).stringlen) c := by
  obtain ⟨c0, hc⟩ := h
  cases o with
  | opSetRgb r g b =>
      refine ⟨(scaleChannel r, scaleChannel g, scaleChannel b), ?_⟩
      show (set_rgb s r g b).ledstatus = _
      rw [set_rgb_ledstatus s r g b (by rw [hc, List.length_replicate])]
      rfl
  | opToggle c => exact ⟨c0, hc⟩
  | opBlink now rate =>
      refine ⟨c0, ?_⟩
      show (blink s now rate).ledstatus
        = List.replicate ((blink s now rate).stringlen) c0
      rw [(blink_preserves s now rate).1, (blink_preserves s now rate).2]
      exact hc
  | opRunThreaded now rate =>
      refine ⟨c0, ?_⟩
      show (run_threaded s now rate).ledstatus
        = List.replicate ((run_threaded s now rate).stringlen) c0
      rw [(run_threaded_preserves s now rate).1,
        (run_threaded_preserves s now rate).2]
      exact hc
  | opShutdown => exact ⟨c0, hc⟩

/-! ## Claim theorems -/

/-- C6: every transport operation issues the bit-exact vendor control transfer
of the spec table: preload uses request 54 with `wValue = (g<<8)|0x20`,
`wIndex = (b<<8)|r`; write-pixel-direct uses `wValue = (g<<8)|pin|0x30`,
`wIndex = (b<<8)|r`; flush uses `wValue = pin|0x10`, `wIndex = 0`; each of
length 8 with the fixed timeout 1.  For in-range channels and pins the
or-packings equal the additive byte decompositions. -/
theorem transfers_match_protocol_table (r g b pin : Nat)
    (hr : r < 256) (hpin : pin < 16) :
    ws2812_preload r g b
        = ⟨0xC0, 54, (g <<< 8) ||| 0x20, (b <<< 8) ||| r, 8, 1⟩
    ∧ ws2812_write pin r g b
        = ⟨0xC0, 54, (g <<< 8) ||| pin ||| 0x30, (b <<< 8) ||| r, 8, 1⟩
    ∧ ws2812_flush pin = ⟨0xC0, 54, pin ||| 0x10, 0, 8, 1⟩
    ∧ (ws2812_preload r g b).wValue = 256 * g + 0x20
    ∧ (ws2812_preload r g b).wIndex = 256 * b + r
    ∧ (ws2812_write pin r g b).wIndex = 256 * b + r
    ∧ (ws2812_flush pin).wValue = pin + 16 := by
  refine ⟨rfl, rfl, rfl, ?_, ?_, ?_, ?_⟩
  · show (g <<< 8) ||| 0x20 = 256 * g + 0x20
    rw [shiftLeft_lor_eq_add 8 g 0x20 (by norm_num)]
    norm_num [Nat.mul_comm]
  · show (b <<< 8) ||| r = 256 * b + r
    rw [shiftLeft_lor_eq_add 8 b r hr]
    norm_num [Nat.mul_comm]
  · show (b <<< 8) ||| r = 256 * b + r
    rw [shiftLeft_lor_eq_add 8 b r hr]
    norm_num [Nat.mul_comm]
  · show pin ||| 0x10 = pin + 16
    rw [Nat.lor_comm]
    conv_lhs => rw [show (0x10 : Nat) = 1 <<< 4 from rfl]
    rw [shiftLeft_lor_eq_add 4 1 pin hpin]
    norm_num [Nat.add_comm]

/-- Witness for C6 at concrete channel values and pin. -/
theorem transfers_match_protocol_table_witness :
    (ws2812_preload 255 7 3).wIndex = 256 * 3 + 255
    ∧ (ws2812_flush 1).wValue = 1 + 16 :=
  ⟨(transfers_match_protocol_table 255 7 3 1 (by norm_num) (by norm_num)).2.2.2.2.1,
   (transfers_match_protocol_table 255 7 3 1 (by norm_num) (by norm_num)).2.2.2.2.2.2⟩

/-- C2 counterexample: `set_rgb` truncates (`int()`), it does not round.  At
channel input `1`, the code stores `int(2.55) = 2`, while
`clamp(round(1*255/100), 0, 255) = 3`. -/
theorem set_rgb_round_counterexample :
    (set_rgb (initState 1 1 0) 1 1 1).ledstatus = [(2, 2, 2)]
    ∧ claimRoundChannel 1 = 3
    ∧ ((2 : ℤ) ≠ claimRoundChannel 1) := by
  have hch : scaleChannel 1 = 2 := by
    norm_num [scaleChannel, ratTrunc, Int.floor_eq_iff]
    rfl
  have hrd : claimRoundChannel 1 = 3 := by
    norm_num [claimRoundChannel, round_eq, Int.floor_eq_iff]
  refine ⟨?_, hrd, by rw [hrd]; decide⟩
  rw [set_rgb_ledstatus (initState 1 1 0) 1 1 1 (by decide), hch]
  rfl

/-- C2 (amended): for every channel input `x` passed to `set_rgb`, the stored
channel value equals `clamp(trunc(x*255/100), 0, 255)` with truncation toward
zero; every stored value lies in `[0,255]`, and out-of-range inputs are
silently clamped, not rejected. -/
theorem set_rgb_stores_clamped_trunc (s : LedState) (r g b : ℚ)
    (hlen : s.ledstatus.length = s.stringlen) :
    (set_rgb s r g b).ledstatus
      = List.replicate s.stringlen
          (scaleChannel r, scaleChannel g, scaleChannel b)
    ∧ (∀ x : ℚ, (scaleChannel x : ℤ) = claimTruncChannel x)
    ∧ (∀ x : ℚ, scaleChannel x ≤ 255) := by
  refine ⟨set_rgb_ledstatus s r g b hlen, ?_, ?_⟩
  · intro x
    exact Int.toNat_of_nonneg (le_max_right _ _)
  · intro x
    exact Int.toNat_le.mpr (max_le (min_le_right _ _) (by norm_num))

/-- Witness for C2 (amended) on a concrete state, with one in-range and two
out-of-range inputs. -/
theorem set_rgb_stores_clamped_trunc_witness :
    (set_rgb (initState 4 1 0) 150 50 (-3)).ledstatus
      = List.replicate 4 (scaleChannel 150, scaleChannel 50, scaleChannel (-3)) :=
  (set_rgb_stores_clamped_trunc (initState 4 1 0) 150 50 (-3) (by decide)).1

/-- C1 counterexample: at the freshly constructed state (`on = False`,
`blink_changed = 0`), a `blink(1)` call at time `10` satisfies
`now - blink_changed > rate`, yet `on` is not flipped: `toggle` only writes
`force_off`, so `on` stays `False`. -/
theorem blink_counterexample :
    (10 : ℚ) - (initState 4 1 0).blink_changed > 1
    ∧ (initState 4 1 0).isOn = false
    ∧ (blink (initState 4 1 0) 10 1).isOn = false := by
  have h : (10 : ℚ) - (initState 4 1 0).blink_changed > 1 := by
    norm_num [initState]
  refine ⟨h, rfl, ?_⟩
  unfold blink
  rw [if_pos h]
  rfl

/-- C1 (amended): when `now - blink_changed > rate`, `blink` sets
`force_off := on` and `blink_changed := now` but leaves `on` itself
unchanged; otherwise it changes nothing.  The flip of `on` is realized only
by the next update cycle, which sets `on := !force_off` — composing the two
does flip `on` when the buffer is nonempty. -/
theorem blink_schedules_toggle (s : LedState) (now rate : ℚ) :
    blink s now rate
      = (if now - s.blink_changed > rate then
          { s with force_off := s.isOn, blink_changed := now }
         else s)
    ∧ (blink s now rate).isOn = s.isOn
    ∧ (now - s.blink_changed > rate → s.ledstatus ≠ [] →
        ∀ nw dur failAt,
          ((update_leds (blink s now rate) (blink s now rate).force_off
              nw dur failAt).1).isOn = !s.isOn) := by
  refine ⟨?_, ?_, ?_⟩
  · by_cases h : now - s.blink_changed > rate
    · rw [if_pos h]
      unfold blink toggle
      rw [if_pos h]
      simp [Bool.not_not]
    · rw [if_neg h]
      unfold blink
      rw [if_neg h]
  · by_cases h : now - s.blink_changed > rate <;>
      unfold blink toggle <;> simp [h]
  · intro h hne nw dur failAt
    have hfo : (blink s now rate).force_off = s.isOn := by
      unfold blink toggle
      rw [if_pos h]
      simp [Bool.not_not]
    have hls : (blink s now rate).ledstatus = s.ledstatus := by
      unfold blink toggle
      rw [if_pos h]
    rw [hfo, update_leds_isOn _ _ _ _ _ (by rw [hls]; exact hne)]

/-- Witness for C1 (amended) at the constructed state, time 10, rate 1. -/
theorem blink_schedules_toggle_witness :
    ((update_leds (blink (initState 4 1 0) 10 1)
        (blink (initState 4 1 0) 10 1).force_off 20 0 none).1).isOn = true := by
  have h := (blink_schedules_toggle (initState 4 1 0) 10 1).2.2
    (by norm_num [initState]) (by decide) 20 0 none
  simpa using h

/-- C3 counterexample: `update()` is `while running: ...`; once `shutdown()`
has set `running = False` the loop exits without any further cycle, so the
loop performs zero — not one — final cycles, and no all-zero preload/flush
sequence is issued after the flag is observed. -/
theorem shutdown_final_cycle_counterexample :
    (shutdown (initState 4 1 0)).running = false
    ∧ (updateLoop (shutdown (initState 4 1 0)) [(1, 0), (2, 0), (3, 0)]
        none).2 = []
    ∧ (List.replicate 4 (ws2812_preload 0 0 0) ++ [ws2812_flush 1]
        ≠ ([] : List CtrlTransfer)) := by
  refine ⟨rfl, ?_, by decide⟩
  simp [updateLoop, shutdown, toggle]

/-- C3 (amended): `shutdown()` sets `force_off = true` and `running = false`;
once the update loop observes `running = false` it terminates immediately,
performing no further cycle and issuing no transfer.  There is no guaranteed
final forced-off cycle; a cycle that still runs on the post-shutdown state
(before the flag is observed) would transmit one `(0,0,0)` preload per
position followed by a single flush, because `force_off` is already true. -/
theorem shutdown_stops_loop (s : LedState) (times : List (ℚ × ℚ))
    (failAt : Option Nat) :
    (shutdown s).running = false
    ∧ (shutdown s).force_off = true
    ∧ updateLoop (shutdown s) times failAt = (shutdown s, [])
    ∧ (∀ now dur,
        (update_leds (shutdown s) (shutdown s).force_off now dur none).2
          = List.replicate s.ledstatus.length (ws2812_preload 0 0 0)
              ++ [ws2812_flush s.pin]) := by
  refine ⟨rfl, rfl, ?_, ?_⟩
  · cases times with
    | nil => rfl
    | cons t rest => simp [updateLoop, shutdown, toggle]
  · intro now dur
    rw [update_leds_snd_none]
    show cycleTransfers true s.ledstatus s.pin = _
    rw [cycleTransfers_zero]

/-- C4 counterexample: with the transport open but the firmware-version read
failing, `__init__` does not complete — the failure propagates to the
caller (the `print(... readFirmwareVersion())` call is unguarded). -/
theorem init_fw_failure_counterexample :
    smartLedsInit 4 1 0 1 0 (Except.error ()) none = Except.error () := rfl

/-- C4 (amended): `__init__` reads the firmware version for logging but does
not guard the read: when it fails after a successful open, the failure
propagates and construction does not complete; construction completes
exactly when the read succeeds. -/
theorem init_fw_failure_propagates (stringlen pin : Nat) (t0 now dur : ℚ)
    (fwRead : Except Unit Nat) (failAt : Option Nat) :
    (∀ e, fwRead = Except.error e →
        smartLedsInit stringlen pin t0 now dur fwRead failAt
          = Except.error e)
    ∧ (∀ v, fwRead = Except.ok v →
        smartLedsInit stringlen pin t0 now dur fwRead failAt
          = Except.ok (mkController stringlen pin t0 now dur failAt)) := by
  constructor
  · intro e he
    subst he
    rfl
  · intro v hv
    subst hv
    rfl

/-- Witness for C4 (amended): a failing and a succeeding firmware read. -/
theorem init_fw_failure_propagates_witness :
    smartLedsInit 4 1 2 3 0 (Except.error ()) none = Except.error ()
    ∧ smartLedsInit 4 1 2 3 0 (Except.ok 13) none
        = Except.ok (mkController 4 1 2 3 0 none) :=
  ⟨(init_fw_failure_propagates 4 1 2 3 0 (Except.error ()) none).1 () rfl,
   (init_fw_failure_propagates 4 1 2 3 0 (Except.ok 13) none).2 13 rfl⟩

/-- C5: `run_threaded(rate)` maps the signed scalar onto three modes:
`rate = 0` sets `force_off = true` and the next push transmits `(0,0,0)` per
position regardless of the buffer; `rate > 0` delegates to `blink` and does
nothing else; `rate < 0` sets `force_off = false` and the next push
transmits the current buffer unchanged. -/
theorem run_threaded_dispatch (s : LedState) (now blink_rate nw dur : ℚ) :
    (blink_rate = 0 →
      run_threaded s now blink_rate = toggle s false
      ∧ (run_threaded s now blink_rate).force_off = true
      ∧ (update_leds (run_threaded s now blink_rate)
          (run_threaded s now blink_rate).force_off nw dur none).2
        = List.replicate s.ledstatus.length (ws2812_preload 0 0 0)
            ++ [ws2812_flush s.pin])
    ∧ (blink_rate > 0 →
        run_threaded s now blink_rate = blink s now blink_rate)
    ∧ (blink_rate < 0 →
        (run_threaded s now blink_rate).force_off = false
        ∧ (run_threaded s now blink_rate).ledstatus = s.ledstatus
        ∧ (update_leds (run_threaded s now blink_rate)
            (run_threaded s now blink_rate).force_off nw dur none).2
          = s.ledstatus.map (fun c => ws2812_preload c.1 c.2.1 c.2.2)
              ++ [ws2812_flush s.pin]) := by
  refine ⟨?_, ?_, ?_⟩
  · intro h0
    have key : run_threaded s now blink_rate = toggle s false := by
      unfold run_threaded
      rw [if_pos h0]
    rw [key]
    refine ⟨rfl, rfl, ?_⟩
    rw [update_leds_snd_none]
    show cycleTransfers true s.ledstatus s.pin = _
    rw [cycleTransfers_zero]
  · intro hpos
    unfold run_threaded
    rw [if_neg (ne_of_gt hpos), if_pos hpos]
  · intro hneg
    have key : run_threaded s now blink_rate = toggle s true := by
      unfold run_threaded
      rw [if_neg (ne_of_lt hneg), if_neg (not_lt.mpr (le_of_lt hneg))]
    rw [key]
    refine ⟨rfl, rfl, ?_⟩
    rw [update_leds_snd_none]
    show cycleTransfers false s.ledstatus s.pin = _
    simp [cycleTransfers]

/-- Witness for C5 at the constructed state, rates `0`, `2` and `-1`. -/
theorem run_threaded_dispatch_witness :
    (run_threaded (initState 4 1 0) 5 0).force_off = true
    ∧ run_threaded (initState 4 1 0) 5 2 = blink (initState 4 1 0) 5 2
    ∧ (run_threaded (initState 4 1 0) 5 (-1)).force_off = false :=
  ⟨((run_threaded_dispatch (initState 4 1 0) 5 0 6 0).1 rfl).2.1,
   (run_threaded_dispatch (initState 4 1 0) 5 2 6 0).2.1 (by norm_num),
   ((run_threaded_dispatch (initState 4 1 0) 5 (-1) 6 0).2.2
      (by norm_num)).1⟩

/-- C7: when less than `MIN_UPDATE_INTERVAL` has elapsed since
`last_execution`, the cycle sleeps exactly the remaining time before issuing
any transfer; consequently the transfer time of a cycle is at least
`MIN_UPDATE_INTERVAL` after any earlier push time bounded by
`last_execution`, and the end-of-cycle timestamp again bounds the new push
time — so two consecutive pushes are never issued less than
`MIN_UPDATE_INTERVAL` apart. -/
theorem cycle_rate_limited (s : LedState) (zero : Bool)
    (now dur prevPush : ℚ) (failAt : Option Nat)
    (hprev : prevPush ≤ s.last_execution) (hdur : 0 ≤ dur) :
    (MIN_UPDATE_INTERVAL - (now - s.last_execution) > 0 →
      sleepRemaining now s.last_execution
        = MIN_UPDATE_INTERVAL - (now - s.last_execution))
    ∧ prevPush + MIN_UPDATE_INTERVAL ≤ cyclePushTime now s.last_execution
    ∧ cyclePushTime now s.last_execution
        ≤ ((update_leds s zero now dur failAt).1).last_execution := by
  refine ⟨?_, ?_, ?_⟩
  · intro h
    dsimp only [sleepRemaining]
    rw [if_pos h]
  · have key : s.last_execution + MIN_UPDATE_INTERVAL
        ≤ cyclePushTime now s.last_execution := by
      dsimp only [cyclePushTime, sleepRemaining]
      by_cases h : MIN_UPDATE_INTERVAL - (now - s.last_execution) > 0
      · rw [if_pos h]
        linarith
      · rw [if_neg h]
        have := not_lt.mp h
        linarith
    linarith
  · rw [update_leds_fst]
    show cyclePushTime now s.last_execution
        ≤ cyclePushTime now s.last_execution + dur
    linarith

/-- Witness for C7 with a fresh state and a cycle starting immediately. -/
theorem cycle_rate_limited_witness :
    (0 : ℚ) + MIN_UPDATE_INTERVAL
      ≤ cyclePushTime 0 (initState 4 1 0).last_execution :=
  (cycle_rate_limited (initState 4 1 0) false 0 0 0 none
    (by norm_num [initState]) le_rfl).2.1

/-- C8: a USB error raised at any transfer of a cycle is caught inside
`update_leds`, which returns normally with the partially-mutated state and
the transfers issued before the failure; `last_execution` is stamped with
the cycle end time whether or not the push failed, so a failed push never
stalls rate limiting.  (`set_rgb`, `toggle` and `blink` are pure state
writes — see their definitions — so no transport error can reach their
callers.) -/
theorem cycle_catches_usb_errors (s : LedState) (zero : Bool) (now dur : ℚ)
    (failAt : Option Nat) :
    ((update_leds s zero now dur failAt).1).last_execution
        = cyclePushTime now s.last_execution + dur
    ∧ (∀ e, update_leds_body s zero failAt = Except.error e →
        update_leds s zero now dur failAt
          = ({ e.partState with
                last_execution := cyclePushTime now s.last_execution + dur },
             e.issued)) := by
  constructor
  · rw [update_leds_fst]
  · intro e he
    unfold update_leds
    rw [he]

/-- Witness for C8: the very first transfer of the cycle fails, yet the call
returns normally and still advances `last_execution`. -/
theorem cycle_catches_usb_errors_witness :
    update_leds (initState 4 1 0) false 1 0 (some 0)
      = ({ { initState 4 1 0 with isOn := true } with
            last_execution
              := cyclePushTime 1 (initState 4 1 0).last_execution + 0 },
         ([] : List CtrlTransfer)) :=
  (cycle_catches_usb_errors (initState 4 1 0) false 1 0 (some 0)).2
    ⟨{ initState 4 1 0 with isOn := true }, []⟩ rfl

/-- C9: construction with strip length `N` and pin `p` fills all `N` buffer
positions with `(128,128,128)` and synchronously pushes `N` gray preloads
followed by one flush with `wValue = p | 0x10`; a subsequent
`set_color(100,0,0)` makes the next cycle stage `N` preloads with
`wValue = (0<<8) | 0x20` and `wIndex = (0<<8) | 255`. -/
theorem init_and_set_color_pushes (N p : Nat) (t0 now dur now2 dur2 : ℚ) :
    ((mkController N p t0 now dur none).1).ledstatus
        = List.replicate N (128, 128, 128)
    ∧ (mkController N p t0 now dur none).2
        = List.replicate N (ws2812_preload 128 128 128) ++ [ws2812_flush p]
    ∧ (update_leds (set_rgb (mkController N p t0 now dur none).1 100 0 0)
         (set_rgb (mkController N p t0 now dur none).1 100 0 0).force_off
         now2 dur2 none).2
        = List.replicate N (ws2812_preload 255 0 0) ++ [ws2812_flush p]
    ∧ (ws2812_flush p).wValue = p ||| 0x10
    ∧ (ws2812_preload 255 0 0).wValue = (0 <<< 8) ||| 0x20
    ∧ (ws2812_preload 255 0 0).wIndex = (0 <<< 8) ||| 255 := by
  have h100 : scaleChannel 100 = 255 := by
    norm_num [scaleChannel, ratTrunc, Int.floor_eq_iff]
    rfl
  have h0 : scaleChannel 0 = 0 := by
    norm_num [scaleChannel, ratTrunc, Int.floor_eq_iff]
  have hpres := update_leds_preserves (initState N p t0) false now dur none
  have hls1 : ((mkController N p t0 now dur none).1).ledstatus
      = List.replicate N (128, 128, 128) := hpres.1
  have hst1 : ((mkController N p t0 now dur none).1).stringlen = N :=
    hpres.2.2.2.1
  have hpin1 : ((mkController N p t0 now dur none).1).pin = p :=
    hpres.2.2.1
  have hfo1 : ((mkController N p t0 now dur none).1).force_off = false :=
    hpres.2.1
  refine ⟨hls1, ?_, ?_, rfl, rfl, rfl⟩
  · show cycleTransfers false (initState N p t0).ledstatus p = _
    simp [cycleTransfers, initState, List.map_replicate]
  · have hs2ls : (set_rgb (mkController N p t0 now dur none).1 100 0 0).ledstatus
        = List.replicate N (255, 0, 0) := by
      rw [set_rgb_ledstatus _ 100 0 0 (by rw [hls1, hst1, List.length_replicate]),
        hst1, h100, h0]
    have hs2fo : (set_rgb (mkController N p t0 now dur none).1 100 0 0).force_off
        = false := hfo1
    have hs2pin : (set_rgb (mkController N p t0 now dur none).1 100 0 0).pin
        = p := hpin1
    rw [update_leds_snd_none, hs2fo, hs2ls, hs2pin]
    simp [cycleTransfers, List.map_replicate]

/-- C10: in every state reachable from construction by any sequence of
`set_rgb`/`toggle`/`blink`/`run_threaded`/`shutdown` calls, the buffer is one
color replicated `stringlen` times — no reachable state holds two different
colors at different positions. -/
theorem buffer_always_uniform (N p : Nat) (t0 : ℚ) (ops : List Op) :
    ∃ c, (runOps (initState N p t0) ops).ledstatus
      = List.replicate ((runOps (initState N p t0) ops).stringlen) c := by
  suffices h : ∀ l s, (∃ c, s.ledstatus = List.replicate s.stringlen c) →
      ∃ c, (runOps s l).ledstatus
        = List.replicate ((runOps s l).stringlen) c by
    exact h ops (initState N p t0) ⟨(128, 128, 128), rfl⟩
  intro l
  induction l with
  | nil => intro s h; exact h
  | cons o rest ih =>
      intro s h
      exact ih (applyOp s o) (applyOp_uniform s o h)

end SmartLeds
